import Mathlib

/-!
Shallow embedding of the `/predict` pipeline of `src/main.py`
(Metal-Text-Detection): image normalization, class-name resolution,
detection-record construction, annotation rendering and the request
orchestrator, together with theorems settling the specification claims.

External collaborators (PIL decoding, the YOLO detector, font metrics,
PNG/base64 encoding) are treated as opaque capabilities supplied through
an environment record; everything the repository's own code computes is
embedded directly.
-/

set_option maxRecDepth 4000

namespace MetalText

/-- Python `int()` on a rational: truncation toward zero
(`map(int, box.xyxy[0].tolist())`, `int(conf * 100)`, `int(box.cls[0].item())`). -/
def intTrunc (q : ℚ) : ℤ :=
  if 0 ≤ q then ⌊q⌋ else ⌈q⌉

/-- Python `round` to the nearest integer, ties to even (banker's rounding),
idealized over ℚ. -/
def roundHalfEven (q : ℚ) : ℤ :=
  let f := ⌊q⌋
  let r := q - f
  if r < 1/2 then f
  else if 1/2 < r then f + 1
  else if f % 2 = 0 then f else f + 1

/-- Python `round(conf, 2)` (line 85 of `src/main.py`), idealized over ℚ. -/
def pythonRound2 (c : ℚ) : ℚ :=
  (roundHalfEven (c * 100) : ℚ) / 100

/-- A decoded PIL image: its color-mode tag and pixel dimensions.
Pixel data is irrelevant to every claim and omitted. -/
structure PILImage where
  mode : String
  width : Nat
  height : Nat
deriving DecidableEq, Repr

/-- `img.convert(mode)`: PIL conversion produces an image of the requested
mode with unchanged dimensions. -/
def convert (img : PILImage) (m : String) : PILImage :=
  ⟨m, img.width, img.height⟩

/-- Number of channels of each standard PIL mode tag. -/
def channels : String → Nat
  | "1" => 1
  | "L" => 1
  | "P" => 1
  | "I" => 1
  | "F" => 1
  | "LA" => 2
  | "La" => 2
  | "PA" => 2
  | "RGB" => 3
  | "YCbCr" => 3
  | "HSV" => 3
  | "LAB" => 3
  | "RGBA" => 4
  | "RGBa" => 4
  | "RGBX" => 4
  | "CMYK" => 4
  | _ => 0

/-- Image Normalizer, lines 64-67 of `src/main.py`:
`if original_mode not in ['RGB', 'RGBA']:`
`  if original_mode in ['P', 'LA', 'L']: img = img.convert('RGBA')`
`  else: img = img.convert('RGB')`. -/
def normalize (img : PILImage) : PILImage :=
  if img.mode = "RGB" ∨ img.mode = "RGBA" then img
  else if img.mode = "P" ∨ img.mode = "LA" ∨ img.mode = "L" then convert img "RGBA"
  else convert img "RGB"

/-- `CLASS_NAMES_CONFIG = ['text', 'metal']` (line 16 of `src/main.py`). -/
def CLASS_NAMES_CONFIG : List String := ["text", "metal"]

/-- The detector's id→name catalog `model.names`, a finite integer-keyed
dictionary modelled as an association list. -/
abbrev Names := List (ℤ × String)

/-- `dict.get(key, default)` on the catalog. -/
def namesGet (names : Names) (k : ℤ) (dflt : String) : String :=
  match names.lookup k with
  | some v => v
  | none => dflt

/-- Class-name resolution, line 84 of `src/main.py`:
`model.names.get(cls_id, f"ID_{cls_id}") if model.names`
`else CLASS_NAMES_CONFIG[cls_id] if 0 <= cls_id < len(CLASS_NAMES_CONFIG)`
`else f"ID_{cls_id}"`. -/
def class_name_to_display (names : Names) (cls_id : ℤ) : String :=
  if names ≠ [] then
    namesGet names cls_id ("ID_" ++ toString cls_id)
  else if 0 ≤ cls_id ∧ cls_id < CLASS_NAMES_CONFIG.length then
    CLASS_NAMES_CONFIG.getD cls_id.toNat ""
  else
    "ID_" ++ toString cls_id

/-- `text_bg_height = text_h + 4` (line 97 of `src/main.py`). -/
def text_bg_height (text_h : ℚ) : ℚ := text_h + 4

/-- Label vertical placement, lines 98-99 of `src/main.py`:
`text_y_position = y1 - text_bg_height`
`if text_y_position < 0: text_y_position = y1 + 2`. -/
def text_y_position (y1 : ℤ) (bg_h : ℚ) : ℚ :=
  let p := (y1 : ℚ) - bg_h
  if p < 0 then (y1 : ℚ) + 2 else p

/-- One raw detector box: `box.xyxy[0]`, `box.conf[0]`, `box.cls[0]`
as produced by the opaque detection capability. -/
structure RawBox where
  bx1 : ℚ
  by1 : ℚ
  bx2 : ℚ
  by2 : ℚ
  conf : ℚ
  cls : ℚ
deriving DecidableEq, Repr

/-- One result frame of the detector (`results[i]`), carrying its boxes. -/
structure Frame where
  boxes : List RawBox
deriving DecidableEq, Repr

/-- One entry of `predictions_data` (line 85 of `src/main.py`). -/
structure DetectionRecord where
  class_id : ℤ
  class_name : String
  confidence : ℚ
  bbox : ℤ × ℤ × ℤ × ℤ
deriving DecidableEq, Repr

/-- A drawing primitive issued on the annotated image: `draw.rectangle`
with optional outline color, fill color and stroke width, or `draw.text`
with a fill color. -/
inductive DrawOp where
  | rect (coords : List ℚ) (outline : Option String) (fill : Option String)
      (width : Option Nat)
  | text (xy : ℚ × ℚ) (s : String) (fill : String)
deriving DecidableEq, Repr

/-- Opaque external capabilities: PIL decoding, the detector's inference,
font text metrics, and PNG+base64 encoding of the drawn-on image. -/
structure Env where
  decodeImage : List Nat → Except String PILImage
  predict : PILImage → String → List Frame
  textWidth : String → ℚ
  textHeight : String → ℚ
  encode : PILImage → List DrawOp → String

/-- Per-box processing, lines 81-106 of `src/main.py`: build the
detection record and the three draw calls (box outline rectangle, label
background rectangle, label text). -/
def processBox (env : Env) (names : Names) (box : RawBox) :
    DetectionRecord × List DrawOp :=
  let x1 := intTrunc box.bx1
  let y1 := intTrunc box.by1
  let x2 := intTrunc box.bx2
  let y2 := intTrunc box.by2
  let conf := box.conf
  let cls_id := intTrunc box.cls
  let name := class_name_to_display names cls_id
  let record : DetectionRecord :=
    ⟨cls_id, name, pythonRound2 conf, (x1, y1, x2, y2)⟩
  let conf_percentage := intTrunc (conf * 100)
  let label := name ++ " " ++ toString conf_percentage ++ "%"
  let text_w := env.textWidth label
  let text_h := env.textHeight label
  let bg_h := text_bg_height text_h
  let y_pos := text_y_position y1 bg_h
  let bg_coords := [(x1 : ℚ), y_pos, (x1 : ℚ) + text_w + 4, y_pos + bg_h]
  (record,
    [ DrawOp.rect [(x1 : ℚ), (y1 : ℚ), (x2 : ℚ), (y2 : ℚ)] (some "red") none (some 3),
      DrawOp.rect bg_coords none (some "red") none,
      DrawOp.text ((x1 : ℚ) + 2, y_pos + 2) label "white" ])

/-- The loop of lines 80-106: every box of the chosen frame, in order. -/
def processBoxes (env : Env) (names : Names) :
    List RawBox → List DetectionRecord × List DrawOp
  | [] => ([], [])
  | b :: rest =>
    let pr := processBox env names b
    let prs := processBoxes env names rest
    (pr.1 :: prs.1, pr.2 ++ prs.2)

/-- Lines 78-80 of `src/main.py`: `if results and len(results) > 0:`
`result = results[0]` — only the first frame's boxes are processed. -/
def processResults (env : Env) (names : Names) :
    List Frame → List DetectionRecord × List DrawOp
  | [] => ([], [])
  | r :: _ => processBoxes env names r.boxes

/-- Line 110 of `src/main.py`:
`file.filename if file.filename else "uploaded_image"`
(Python truthiness: both `None` and `""` fall back to the placeholder). -/
def resolveFilename : Option String → String
  | none => "uploaded_image"
  | some s => if s = "" then "uploaded_image" else s

/-- Python `s.startswith(pre)`, modelled over the character lists of the
two strings. -/
def startswith (s pre : String) : Bool :=
  pre.data.isPrefixOf s.data

/-- The uploaded multipart file as the endpoint sees it. -/
structure UploadFileT where
  contentType : String
  filename : Option String
  bytes : List Nat

/-- The model handle: present iff loading succeeded, carrying its
embedded id→name catalog. -/
structure YOLOModel where
  names : Names

/-- Endpoint outcome: a 200 JSON payload (exactly the three fields of
line 110) or an `HTTPException` with status code and detail. -/
inductive Response where
  | ok (predictions : List DetectionRecord) (annotated_image_base64 : String)
      (filename : String)
  | error (statusCode : Nat) (detail : String)
deriving DecidableEq, Repr

/-- HTTP status of a response (200 on the success constructor). -/
def statusOf : Response → Nat
  | .ok _ _ _ => 200
  | .error s _ => s

/-- A 400-class (caller input error) status. -/
def is4xx (r : Response) : Prop := 400 ≤ statusOf r ∧ statusOf r < 500

instance (r : Response) : Decidable (is4xx r) := by
  unfold is4xx; infer_instance

/-- Result of one request: the response plus whether `model.predict`
was ever invoked. -/
structure PipelineResult where
  response : Response
  detectorInvoked : Bool
deriving DecidableEq, Repr

/-- The `try` block of lines 61-113 of `src/main.py`, split on the
outcome of `Image.open`: a decoding failure raises and is caught by the
`except` of line 111, producing a 500; on success the image is
normalized (lines 64-67), the detector runs (line 68), the annotated
copy is forced to RGBA (lines 70-71), the first frame's boxes are
converted and drawn (lines 78-106), and the result is encoded and
returned (lines 107-110). -/
def afterDecode (env : Env) (m : YOLOModel) (model_device : String)
    (file : UploadFileT) : Except String PILImage → PipelineResult
  | .error e => ⟨.error 500 ("Error processing image: " ++ e), false⟩
  | .ok img0 =>
    let img := normalize img0
    let results := env.predict img model_device
    let annotated_img := if img.mode ≠ "RGBA" then convert img "RGBA" else img
    let pr := processResults env m.names results
    ⟨.ok pr.1 (env.encode annotated_img pr.2) (resolveFilename file.filename),
      true⟩

/-- The `/predict` endpoint, lines 55-113 of `src/main.py`.

Order of the source: the `model is None` guard (503, line 57) precedes
the content-type guard (400, line 59); both precede the `try` block,
embedded as `afterDecode` applied to the decoder's outcome. -/
def predict_image (env : Env) :
    Option YOLOModel → String → UploadFileT → PipelineResult
  | none, _, _ =>
    ⟨.error 503 "Model is not loaded or failed to load. API unavailable.", false⟩
  | some m, model_device, file =>
    if ¬ startswith file.contentType "image/" then
      ⟨.error 400 "Invalid file type. Please upload an image.", false⟩
    else
      afterDecode env m model_device file (env.decodeImage file.bytes)

/-- First label text among a list of draw operations. -/
def labelOf (ops : List DrawOp) : Option String :=
  ops.findSome? fun op =>
    match op with
    | .text _ s _ => some s
    | _ => none

/-- Outline color of the first rectangle drawn with an outline. -/
def outlineColorOf (ops : List DrawOp) : Option String :=
  ops.findSome? fun op =>
    match op with
    | .rect _ (some c) _ _ => some c
    | _ => none

/-- Fill color of the first rectangle drawn with a fill. -/
def bgFillOf (ops : List DrawOp) : Option String :=
  ops.findSome? fun op =>
    match op with
    | .rect _ _ (some c) _ => some c
    | _ => none

/-- Fill color of the first text drawn. -/
def textFillOf (ops : List DrawOp) : Option String :=
  ops.findSome? fun op =>
    match op with
    | .text _ _ c => some c
    | _ => none

/-- A concrete environment for witnesses: decoding always succeeds with a
100×100 RGB image, the detector returns no frames, metrics are zero and
the encoder returns a fixed string. -/
def envOk : Env where
  decodeImage := fun _ => .ok ⟨"RGB", 100, 100⟩
  predict := fun _ _ => []
  textWidth := fun _ => 0
  textHeight := fun _ => 20
  encode := fun _ _ => "iVBORw0KGgo"

/-- A concrete environment whose decoder always fails, as PIL does on
bytes that are not an image. -/
def envBadBytes : Env where
  decodeImage := fun _ => .error "cannot identify image file"
  predict := fun _ _ => []
  textWidth := fun _ => 0
  textHeight := fun _ => 20
  encode := fun _ _ => "iVBORw0KGgo"

/-- A `text/plain` upload. -/
def filePlain : UploadFileT := ⟨"text/plain", some "notes.txt", [104, 105]⟩

/-- A PNG upload with a filename. -/
def filePng : UploadFileT := ⟨"image/png", some "photo.png", [137, 80]⟩

/-- A model handle with an empty embedded catalog. -/
def mdlEmpty : YOLOModel := ⟨[]⟩

/-- A raw detector box with confidence 0.987 and class id 0. -/
def box987 : RawBox := ⟨10, 50, 60, 90, 987/1000, 0⟩

/-! ## Theorems settling the claims -/

/-- Claim C5: the Normalizer passes RGB/RGBA through unchanged, sends
palette (P), grayscale (L) and grayscale+alpha (LA) modes to 4-channel,
sends every other mode to 3-channel, always outputs exactly 3 or 4
channels, and preserves width and height. -/
theorem C5_normalizer_mode_policy (img : PILImage) :
    ((img.mode = "RGB" ∨ img.mode = "RGBA") → normalize img = img) ∧
    ((img.mode = "P" ∨ img.mode = "LA" ∨ img.mode = "L") →
      channels (normalize img).mode = 4) ∧
    (img.mode ≠ "RGB" → img.mode ≠ "RGBA" → img.mode ≠ "P" →
      img.mode ≠ "LA" → img.mode ≠ "L" → channels (normalize img).mode = 3) ∧
    (channels (normalize img).mode = 3 ∨ channels (normalize img).mode = 4) ∧
    (normalize img).width = img.width ∧ (normalize img).height = img.height := by
  refine ⟨?_, ?_, ?_, ?_, ?_, ?_⟩
  · intro h
    unfold normalize
    rw [if_pos h]
  · rintro (h | h | h) <;> simp [normalize, convert, channels, h]
  · intro h1 h2 h3 h4 h5
    unfold normalize
    rw [if_neg (by simp [h1, h2]), if_neg (by simp [h3, h4, h5])]
    simp [convert, channels]
  · unfold normalize
    split
    · rename_i h
      rcases h with h | h <;> simp [h, channels]
    · split <;> simp [convert, channels]
  · unfold normalize
    split
    · rfl
    · split <;> rfl
  · unfold normalize
    split
    · rfl
    · split <;> rfl

/-- Claim C5 witness at concrete modes. -/
theorem C5_normalizer_witness :
    normalize ⟨"RGB", 100, 100⟩ = ⟨"RGB", 100, 100⟩ ∧
    channels (normalize ⟨"P", 7, 9⟩).mode = 4 ∧
    channels (normalize ⟨"CMYK", 7, 9⟩).mode = 3 := by
  refine ⟨?_, ?_, ?_⟩
  · exact (C5_normalizer_mode_policy ⟨"RGB", 100, 100⟩).1 (Or.inl rfl)
  · exact (C5_normalizer_mode_policy ⟨"P", 7, 9⟩).2.1 (Or.inl rfl)
  · exact (C5_normalizer_mode_policy ⟨"CMYK", 7, 9⟩).2.2.1
      (by decide) (by decide) (by decide) (by decide) (by decide)

/-- Claim C2: the exact three-tier class-name precedence of line 84 —
non-empty catalog: catalog entry, defaulting to `"ID_<id>"`; empty
catalog and id a valid index into the configured list: that list entry;
otherwise `"ID_<id>"` — together with the three concrete examples from
the specification. -/
theorem C2_class_name_three_tier :
    (∀ (names : Names) (id : ℤ), names ≠ [] →
      class_name_to_display names id =
        (names.lookup id).getD ("ID_" ++ toString id)) ∧
    (∀ id : ℤ, 0 ≤ id → id < CLASS_NAMES_CONFIG.length →
      class_name_to_display [] id = CLASS_NAMES_CONFIG.getD id.toNat "") ∧
    (∀ id : ℤ, ¬ (0 ≤ id ∧ id < CLASS_NAMES_CONFIG.length) →
      class_name_to_display [] id = "ID_" ++ toString id) ∧
    class_name_to_display [(0, "text"), (1, "metal")] 0 = "text" ∧
    class_name_to_display [] 1 = "metal" ∧
    class_name_to_display [] 5 = "ID_5" := by
  refine ⟨?_, ?_, ?_, ?_, ?_, ?_⟩
  · intro names id h
    unfold class_name_to_display namesGet
    rw [if_pos h]
    cases names.lookup id <;> rfl
  · intro id h1 h2
    unfold class_name_to_display
    rw [if_neg (by simp), if_pos ⟨h1, h2⟩]
  · intro id h
    unfold class_name_to_display
    rw [if_neg (by simp), if_neg h]
  · rfl
  · rfl
  · rfl

/-- Claim C2 witness at concrete catalogs and ids. -/
theorem C2_class_name_witness :
    class_name_to_display [(0, "text"), (1, "metal")] 1 = "metal" ∧
    class_name_to_display [] 0 = "text" ∧
    class_name_to_display [] (-1) = "ID_-1" := by
  refine ⟨?_, ?_, ?_⟩
  · have h := C2_class_name_three_tier.1 [(0, "text"), (1, "metal")] 1 (by simp)
    simpa using h
  · have h := C2_class_name_three_tier.2.1 0 (by decide) (by decide)
    simpa [CLASS_NAMES_CONFIG] using h
  · have h := C2_class_name_three_tier.2.2.1 (-1) (by decide)
    simpa using h

/-- Claim C6: the label tag's vertical position is `y1 - h` (immediately
above the box) when `y1 - h ≥ 0`, and `y1 + 2` (just inside the box's
top edge) when `y1 - h < 0`, where `h` is the computed label background
height. -/
theorem C6_label_placement (y1 : ℤ) (h : ℚ) :
    (0 ≤ (y1 : ℚ) - h → text_y_position y1 h = (y1 : ℚ) - h) ∧
    ((y1 : ℚ) - h < 0 → text_y_position y1 h = (y1 : ℚ) + 2) := by
  constructor
  · intro hp
    unfold text_y_position
    rw [if_neg (by linarith)]
  · intro hn
    unfold text_y_position
    rw [if_pos hn]

/-- Claim C6 witness: enough room above at `y1 = 50, h = 24`; not enough
at `y1 = 10, h = 24`. -/
theorem C6_label_placement_witness :
    text_y_position 50 24 = 26 ∧ text_y_position 10 24 = 12 := by
  constructor
  · have h := (C6_label_placement 50 24).1 (by norm_num)
    rw [h]; norm_num
  · have h := (C6_label_placement 10 24).2 (by norm_num)
    rw [h]; norm_num

/-- Claim C7: with the model unloaded, every `/predict` request is
answered 503 (not 500, not a 400-class caller error) regardless of the
uploaded image's validity, and the detector is never invoked. -/
theorem C7_model_unloaded_503 (env : Env) (device : String) (file : UploadFileT) :
    predict_image env none device file =
      ⟨.error 503 "Model is not loaded or failed to load. API unavailable.",
        false⟩ ∧
    statusOf (predict_image env none device file).response = 503 ∧
    statusOf (predict_image env none device file).response ≠ 500 ∧
    ¬ is4xx (predict_image env none device file).response := by
  have h : statusOf (predict_image env none device file).response = 503 := rfl
  refine ⟨rfl, h, ?_, ?_⟩
  · rw [h]; norm_num
  · intro hx
    unfold is4xx at hx
    rw [h] at hx
    exact absurd hx.2 (by norm_num)

/-- Claim C10: the model-availability check precedes content-type
validation — an unloaded model yields 503 even for a non-image content
type, so the 400 branch is unreachable when the model is absent. -/
theorem C10_model_check_first (env : Env) (device : String) (file : UploadFileT)
    (_h : ¬ startswith file.contentType "image/") :
    statusOf (predict_image env none device file).response = 503 ∧
    statusOf (predict_image env none device file).response ≠ 400 := by
  have h503 : statusOf (predict_image env none device file).response = 503 := rfl
  exact ⟨h503, by rw [h503]; norm_num⟩

/-- Claim C10 witness: a `text/plain` upload against an unloaded model. -/
theorem C10_model_check_first_witness :
    statusOf (predict_image envOk none "cpu" filePlain).response = 503 ∧
    statusOf (predict_image envOk none "cpu" filePlain).response ≠ 400 :=
  C10_model_check_first envOk "cpu" filePlain (by decide)

/-- Claim C1, counterexample to the original claim: with the model
loaded, content type `image/png`, and bytes PIL cannot decode, the code
answers 500 (the `except` of line 111), not a 400-class caller error —
the claim asserted undecodable bytes yield a 400-class response. -/
theorem C1_counterexample :
    statusOf (predict_image envBadBytes (some mdlEmpty) "cpu" filePng).response
      = 500 ∧
    ¬ is4xx (predict_image envBadBytes (some mdlEmpty) "cpu" filePng).response
      := by
  have h : statusOf
      (predict_image envBadBytes (some mdlEmpty) "cpu" filePng).response
      = 500 := by decide
  refine ⟨h, ?_⟩
  intro hx
  unfold is4xx at hx
  rw [h] at hx
  exact absurd hx.2 (by norm_num)

/-- Claim C1 as amended: a non-image content type yields 400 and the
detector is never invoked; undecodable image bytes yield 500 (internal
error), not 400, and the detector is never invoked either. -/
theorem C1_amended (env : Env) (m : YOLOModel) (device : String)
    (file : UploadFileT) :
    (¬ startswith file.contentType "image/" →
      predict_image env (some m) device file =
        ⟨.error 400 "Invalid file type. Please upload an image.", false⟩) ∧
    (∀ e : String, startswith file.contentType "image/" →
      env.decodeImage file.bytes = .error e →
      predict_image env (some m) device file =
        ⟨.error 500 ("Error processing image: " ++ e), false⟩) := by
  constructor
  · intro h
    simp only [predict_image]
    rw [if_pos h]
  · intro e hct hdec
    simp only [predict_image]
    rw [if_neg (by simpa using hct), hdec]
    rfl

/-- Claim C1 witness: `text/plain` → 400 without detector invocation;
undecodable `image/png` bytes → 500. -/
theorem C1_amended_witness :
    predict_image envOk (some mdlEmpty) "cpu" filePlain =
      ⟨.error 400 "Invalid file type. Please upload an image.", false⟩ ∧
    predict_image envBadBytes (some mdlEmpty) "cpu" filePng =
      ⟨.error 500 "Error processing image: cannot identify image file",
        false⟩ := by
  constructor
  · exact (C1_amended envOk mdlEmpty "cpu" filePlain).1 (by decide)
  · exact (C1_amended envBadBytes mdlEmpty "cpu" filePng).2
      "cannot identify image file" (by decide) rfl

/-- Claim C8: every successful response carries exactly the predictions,
the base64 string and the filename, where the filename is the uploaded
name when a non-empty one was supplied and `"uploaded_image"` otherwise. -/
theorem C8_success_payload (env : Env) (m : YOLOModel) (device : String)
    (file : UploadFileT) (img0 : PILImage)
    (hct : startswith file.contentType "image/")
    (hdec : env.decodeImage file.bytes = .ok img0) :
    (∃ p e, (predict_image env (some m) device file).response =
      Response.ok p e (resolveFilename file.filename)) ∧
    (∀ s : String, s ≠ "" → resolveFilename (some s) = s) ∧
    resolveFilename none = "uploaded_image" ∧
    resolveFilename (some "") = "uploaded_image" := by
  refine ⟨?_, ?_, rfl, rfl⟩
  · simp only [predict_image]
    rw [if_neg (by simpa using hct), hdec]
    exact ⟨_, _, rfl⟩
  · intro s hs
    simp only [resolveFilename]
    rw [if_neg hs]

/-- Claim C8 witness: a decodable PNG named `photo.png` produces a
success payload carrying that filename. -/
theorem C8_success_payload_witness :
    (∃ p e, (predict_image envOk (some mdlEmpty) "cpu" filePng).response =
      Response.ok p e (resolveFilename filePng.filename)) ∧
    resolveFilename filePng.filename = "photo.png" := by
  constructor
  · exact (C8_success_payload envOk mdlEmpty "cpu" filePng ⟨"RGB", 100, 100⟩
      (by decide) rfl).1
  · rfl

/-- Claim C9: only the first result frame's boxes are converted and
rendered — the records and draw operations for `f :: rest` equal those
for `f`'s boxes alone — and an empty result sequence still yields a
success response with an empty predictions list and the encoded
annotated image. -/
theorem C9_first_frame_only (env : Env) (m : YOLOModel) (device : String)
    (file : UploadFileT) (img0 : PILImage) (f : Frame) (rest : List Frame)
    (hct : startswith file.contentType "image/")
    (hdec : env.decodeImage file.bytes = .ok img0) :
    processResults env m.names (f :: rest) = processBoxes env m.names f.boxes ∧
    processResults env m.names [] = ([], []) ∧
    (env.predict (normalize img0) device = [] →
      (predict_image env (some m) device file).response =
        Response.ok []
          (env.encode
            (if (normalize img0).mode ≠ "RGBA" then convert (normalize img0) "RGBA"
             else normalize img0) [])
          (resolveFilename file.filename)) := by
  refine ⟨rfl, rfl, ?_⟩
  intro hp
  simp only [predict_image]
  rw [if_neg (by simpa using hct), hdec]
  simp only [afterDecode, hp, processResults]

/-- Claim C9 witness: a zero-detection run on a 100×100 RGB image gives
`predictions = []` with the encoded annotated image still present. -/
theorem C9_first_frame_only_witness :
    processResults envOk [] [Frame.mk [box987], Frame.mk [box987, box987]] =
      processBoxes envOk [] [box987] ∧
    (predict_image envOk (some mdlEmpty) "cpu" filePng).response =
      Response.ok []
        (envOk.encode
          (if (normalize ⟨"RGB", 100, 100⟩).mode ≠ "RGBA" then
            convert (normalize ⟨"RGB", 100, 100⟩) "RGBA"
           else normalize ⟨"RGB", 100, 100⟩) [])
        (resolveFilename filePng.filename) := by
  constructor
  · exact (C9_first_frame_only envOk mdlEmpty "cpu" filePng ⟨"RGB", 100, 100⟩
      (Frame.mk [box987]) [Frame.mk [box987, box987]] (by decide) rfl).1
  · exact (C9_first_frame_only envOk mdlEmpty "cpu" filePng ⟨"RGB", 100, 100⟩
      (Frame.mk []) [] (by decide) rfl).2.2 rfl

/-- Strings differ when one is the other extended by a character. -/
theorem append_bang_ne (p : String) : p ++ "!" ≠ p := by
  intro h
  have hd : (p ++ "!").data = p.data := congrArg String.data h
  rw [String.data_append] at hd
  have hl := congrArg List.length hd
  simp at hl

/-- Claim C3, counterexample: the renderer admits no two-color policy
keyed on a primary class — the box outline color is the constant `"red"`
for every class name, so no pair of distinct colors can be assigned to
primary versus non-primary records (lines 104-106 draw `"red"`/`"red"`/
`"white"` unconditionally). -/
theorem C3_counterexample :
    ¬ ∃ primary c1 c2 : String, c1 ≠ c2 ∧
      ∀ (names : Names) (box : RawBox),
        outlineColorOf (processBox envOk names box).2 =
          some (if class_name_to_display names (intTrunc box.cls) = primary
                then c1 else c2) := by
  rintro ⟨primary, c1, c2, hne, hall⟩
  have hred : ∀ (names : Names) (box : RawBox),
      outlineColorOf (processBox envOk names box).2 = some "red" := by
    intro names box
    simp [processBox, outlineColorOf]
  have h1 := hall [(0, primary)] box987
  have h2 := hall [(0, primary ++ "!")] box987
  rw [hred] at h1 h2
  have hn1 : class_name_to_display [(0, primary)] (intTrunc box987.cls)
      = primary := by
    simp [class_name_to_display, namesGet, box987, intTrunc, List.lookup]
  have hn2 : class_name_to_display [(0, primary ++ "!")] (intTrunc box987.cls)
      = primary ++ "!" := by
    simp [class_name_to_display, namesGet, box987, intTrunc, List.lookup]
  rw [hn1, if_pos rfl] at h1
  rw [hn2, if_neg (append_bang_ne primary)] at h2
  have hc1 : c1 = "red" := by
    have := h1.symm
    simpa using this
  have hc2 : c2 = "red" := by
    have := h2.symm
    simpa using this
  exact hne (hc1.trans hc2.symm)

/-- Claim C3 as amended: every record is drawn with the same fixed
color — `"red"` box outline, `"red"` label background — regardless of
class, and the label text is the fixed contrasting `"white"`, also
regardless of class. -/
theorem C3_amended (env : Env) (names : Names) (box : RawBox) :
    outlineColorOf (processBox env names box).2 = some "red" ∧
    bgFillOf (processBox env names box).2 = some "red" ∧
    textFillOf (processBox env names box).2 = some "white" := by
  refine ⟨?_, ?_, ?_⟩ <;> simp [processBox, outlineColorOf, bgFillOf, textFillOf]

/-- Claim C4, counterexample: for raw confidence 0.987 the label shows
the truncated percentage `"text 98%"`, while the claim's
nearest-integer rounding of `0.987 * 100` is `99`; the reported
two-decimal confidence is `0.99`, which also shows the displayed
percentage is not derived from the reported value. -/
theorem C4_counterexample :
    (processBox envOk [(0, "text")] box987).1.confidence = 99/100 ∧
    labelOf (processBox envOk [(0, "text")] box987).2 = some "text 98%" ∧
    round ((987 : ℚ)/1000 * 100) = 99 ∧
    (some "text 98%" : Option String) ≠ some "text 99%" := by
  have hq : (987 : ℚ)/1000 * 100 = 987/10 := by norm_num
  have hfl : ⌊(987 : ℚ)/1000 * 100⌋ = 98 := by
    rw [hq, Int.floor_eq_iff]
    norm_num
  have hit : intTrunc ((987 : ℚ)/1000 * 100) = 98 := by
    unfold intTrunc
    rw [if_pos (by norm_num), hfl]
  have hr : roundHalfEven ((987 : ℚ)/1000 * 100) = 99 := by
    simp only [roundHalfEven, hfl]
    rw [hq]
    norm_num
  refine ⟨?_, ?_, ?_, by decide⟩
  · show pythonRound2 box987.conf = 99/100
    unfold pythonRound2 box987
    rw [hr]
    norm_num
  · have hlab : labelOf (processBox envOk [(0, "text")] box987).2 =
        some (class_name_to_display [(0, "text")] (intTrunc box987.cls) ++ " " ++
          toString (intTrunc (box987.conf * 100)) ++ "%") := by
      simp [processBox, labelOf]
    rw [hlab]
    have hcls : intTrunc box987.cls = 0 := by
      unfold intTrunc box987
      norm_num
    rw [hcls]
    have hconf : box987.conf * 100 = (987 : ℚ)/1000 * 100 := rfl
    rw [hconf, hit]
    have hname : class_name_to_display [(0, "text")] 0 = "text" := rfl
    rw [hname]
    have h98 : toString (98 : ℤ) = "98" := by decide
    rw [h98]
    decide
  · rw [round_eq, hq, Int.floor_eq_iff]
    norm_num

/-- Claim C4 as amended: the reported confidence is the raw confidence
rounded to two decimal places, while the displayed label percentage is
`c * 100` truncated to an integer (equal to `⌊c * 100⌋` since
confidences are nonnegative) computed from the unrounded confidence. -/
theorem C4_amended (env : Env) (names : Names) (box : RawBox)
    (hc : 0 ≤ box.conf) :
    (processBox env names box).1.confidence = pythonRound2 box.conf ∧
    intTrunc (box.conf * 100) = ⌊box.conf * 100⌋ ∧
    labelOf (processBox env names box).2 =
      some (class_name_to_display names (intTrunc box.cls) ++ " " ++
        toString ⌊box.conf * 100⌋ ++ "%") := by
  have hfloor : intTrunc (box.conf * 100) = ⌊box.conf * 100⌋ := by
    unfold intTrunc
    rw [if_pos (by positivity)]
  refine ⟨rfl, hfloor, ?_⟩
  simp [processBox, labelOf, hfloor]

/-- Claim C4 witness: at confidence 0.987 the reported value is 0.99 and
the label carries the truncated percentage 98. -/
theorem C4_amended_witness :
    (processBox envOk [(0, "text")] box987).1.confidence
      = pythonRound2 (987/1000) ∧
    labelOf (processBox envOk [(0, "text")] box987).2 =
      some (class_name_to_display [(0, "text")] (intTrunc box987.cls) ++ " " ++
        toString ⌊(987 : ℚ)/1000 * 100⌋ ++ "%") := by
  have h := C4_amended envOk [(0, "text")] box987 (by norm_num [box987])
  exact ⟨h.1, h.2.2⟩

end MetalText
